import Mathlib

/-!
Verification development for the Lab-backend Flask application (src/app.py).

The five request-handler functions that the claims concern —
`create_team`, `create_component_request`, `process_component_request`,
`approve_request` — are shallowly embedded as pure functions on an explicit
database state `DB` mirroring the three MongoDB collections the code uses
(`components`, `student_teams`, `counters`).

Modelling conventions:
  * Each handler invocation receives a single clock reading `Time`
    (the code calls `datetime.utcnow()` several times inside one handler;
    the micro-second differences between those calls are not modelled).
    Timestamps stored in documents are modelled as integer day counts
    (`Time.day`); only the fields that feed id formatting keep their
    string/numeric shape (`Time.year`, `Time.ymd` for `strftime %Y%m%d`).
  * The JWT payload placed in `request.current_user` is modelled as a
    record `CurrentUser` carrying the fields the handlers read
    (`roll_number`, `team_number`, `username`); authentication itself is an
    external collaborator and is not modelled.
  * `update_one` / `find_one_and_update` touch the first matching document
    only; this is modelled by `updateFirst`.
  * The unique indexes created in the `__main__` block
    (src/app.py lines 509-510: on `ipa_ipr_no` and on `members.roll_number`)
    are assumed to exist: `insert_one` fails (raising an uncaught
    `DuplicateKeyError`) exactly when it would violate one of them.  A
    MongoDB unique multikey index compares array values across documents,
    not within one document's array, and the model reflects that.
  * Python `int(...)` on a malformed value raises; fallible conversions are
    modelled with `Option`, a `none` standing for the raised exception,
    which each handler surfaces as an `uncaughtError` result constructor.
  * Python's `re.match(p + chr(36), s)` also accepts one trailing newline;
    the validators model this.  Unicode digit classes and `int` underscore
    grouping are not modelled (no claim depends on them).
-/

namespace LabBackend

/-! ### String and number helpers (Python `str.upper`, f-string formatting, `int`) -/

/-- Python `str.upper()` (ASCII range, which is all the app feeds it). -/
def pyUpper (s : String) : String := String.mk (s.toList.map Char.toUpper)

/-- Decimal digit character for `d < 10`. -/
def digitChar (d : Nat) : Char := Char.ofNat (48 + d)

/-- Fuel-indexed accumulator for decimal rendering; `natReprChars` supplies
fuel `n`, which is enough since the argument shrinks by `/ 10` each step. -/
def natReprAux : Nat → Nat → List Char
  | 0, _ => []
  | _ + 1, 0 => []
  | fuel + 1, n + 1 => natReprAux fuel ((n + 1) / 10) ++ [digitChar ((n + 1) % 10)]

/-- Decimal rendering of a natural number, most significant digit first
(models Python `str(n)` / `f-string` rendering of a non-negative int). -/
def natReprChars (n : Nat) : List Char :=
  if n = 0 then ['0'] else natReprAux n n

/-- Python `f"{n:03d}"` for `n ≥ 0`: zero-pad the decimal rendering to at
least three characters. -/
def pad3Chars (n : Nat) : List Char :=
  let s := natReprChars n
  if s.length < 3 then List.replicate (3 - s.length) '0' ++ s else s

/-- Python `s[-k:]`: the last `k` characters (the whole string when it is
shorter than `k`). -/
def lastChars (s : String) (k : Nat) : List Char :=
  (s.toList.reverse.take k).reverse

/-- Value of a digit string read most-significant-first (used to invert the
decimal rendering). -/
def reprVal (cs : List Char) : Nat :=
  cs.foldl (fun a c => a * 10 + (c.toNat - 48)) 0

/-- Python `int(s)` on a string: optional surrounding whitespace, optional
sign, then a non-empty run of digits; anything else raises `ValueError`
(modelled as `none`). -/
def pyStrInt (s : String) : Option Int :=
  let cs := (s.toList.dropWhile Char.isWhitespace).reverse.dropWhile Char.isWhitespace |>.reverse
  match cs with
  | '-' :: ds =>
    if ds ≠ [] ∧ ds.all Char.isDigit then some (-(Int.ofNat (reprVal ds))) else none
  | '+' :: ds =>
    if ds ≠ [] ∧ ds.all Char.isDigit then some (Int.ofNat (reprVal ds)) else none
  | ds =>
    if ds ≠ [] ∧ ds.all Char.isDigit then some (Int.ofNat (reprVal ds)) else none

/-- JSON scalar as it reaches `data.get(...)` for numeric fields. -/
inductive JVal where
  | jnum (n : Int)
  | jstr (s : String)
  | jnull
deriving DecidableEq, Repr

/-- Python `int(v)`: identity on ints, string parse on strings, raises on
`None` (`TypeError`, modelled as `none` like `ValueError`). -/
def pyInt : JVal → Option Int
  | .jnum n => some n
  | .jstr s => pyStrInt s
  | .jnull => none

/-! ### Regex validators (src/app.py lines 42-46) -/

/-- Body of `(IPA|IPR)\d{3}` with `re.IGNORECASE`, anchored, length six. -/
def teamNumBody : List Char → Bool
  | [a, b, c, d, e, f] =>
    (a.toUpper = 'I' && b.toUpper = 'P' && (c.toUpper = 'A' || c.toUpper = 'R'))
      && d.isDigit && e.isDigit && f.isDigit
  | _ => false

/-- Model of `validate_team_number` (src/app.py line 42): `re.match` of
`^(IPA|IPR)\d{3}$` with `IGNORECASE`; `$` also matches before one trailing
newline. -/
def validate_team_number (s : String) : Bool :=
  teamNumBody s.toList
    || (match s.toList.reverse with
        | '\n' :: rest => teamNumBody rest.reverse
        | _ => false)

/-- Body of `[A-Z]\d{3}`, anchored, length four. -/
def rollBody : List Char → Bool
  | [a, b, c, d] => a.isUpper && b.isDigit && c.isDigit && d.isDigit
  | _ => false

/-- Model of `validate_roll_number` (src/app.py line 45): `re.match` of
`^[A-Z]\d{3}$`; `$` also matches before one trailing newline. -/
def validate_roll_number (s : String) : Bool :=
  rollBody s.toList
    || (match s.toList.reverse with
        | '\n' :: rest => rollBody rest.reverse
        | _ => false)

/-! ### Data model: the three MongoDB collections -/

/-- One clock reading (`datetime.utcnow()`) for a handler invocation. -/
structure Time where
  year : Nat
  /-- `strftime %Y%m%d` rendering of the date. -/
  ymd : String
  /-- Timestamp as a day count; `isoformat` strings are modelled by it. -/
  day : Int
deriving DecidableEq, Repr

/-- A document of the `components` collection. -/
structure Component where
  id : Int
  name : String
  description : String
  available : Int
  category : String
deriving DecidableEq, Repr

/-- Team member subdocument (built at src/app.py lines 92-98). -/
structure Member where
  name : String
  roll_number : String
  phone : String
  email : String
  is_active : Bool
deriving DecidableEq, Repr

/-- Resolution stamp `{by, at}` (field names renamed: `by` is a Lean
keyword). -/
structure Resolution where
  resolved_by : String
  resolved_at : Int
deriving DecidableEq, Repr

/-- A `component_requests` array entry (created at src/app.py lines 180-189).
The reject branch `$push`es onto `resolution` (lines 394-399) while the
accept branch `$set`s `resolution.by` / `resolution.at` (lines 430-431), and
`approve_request` `$set`s `processed_at` / `processed_by` (lines 472-473);
each of those dynamically-added shapes gets its own field, absent (`[]` /
`none`) in a freshly created request. -/
structure ComponentRequest where
  request_id : String
  component_id : Int
  name : String
  quantity : Int
  request_date : Int
  requested_by : String
  status : String
  notes : String
  resolutionPushed : List Resolution
  resolutionSet : Option Resolution
  processed_at : Option Int
  processed_by : Option String
deriving DecidableEq, Repr

/-- An `issued_components` array entry.  `request_id` is stored only by the
`approve_request` variant (src/app.py line 495). -/
structure IssuedComponent where
  issue_id : String
  component_id : Int
  name : String
  quantity : Int
  issue_date : Int
  issued_by : String
  expected_return : Int
  request_id : Option String
  status : String
deriving DecidableEq, Repr

/-- A document of the `student_teams` collection (shape from src/app.py
lines 100-108; no handler under test writes `return_history`). -/
structure Team where
  ipa_ipr_no : String
  created_at : Int
  updated_at : Int
  members : List Member
  component_requests : List ComponentRequest
  issued_components : List IssuedComponent
  return_history : List Unit
deriving DecidableEq, Repr

/-- Whole database state: the `components` and `student_teams` collections
plus the single `{_id: 'request_id'}` document of the `counters`
collection (its current `seq`; the upsert in the handler makes a missing
document behave like `seq = 0`). -/
structure DB where
  components : List Component
  student_teams : List Team
  counters_request_seq : Nat
deriving DecidableEq, Repr

/-- JWT payload fields the handlers read from `request.current_user`. -/
structure CurrentUser where
  roll_number : String
  team_number : String
  username : String
deriving DecidableEq, Repr

/-! ### Generic collection update helpers (`update_one` semantics) -/

/-- Semantics of `update_one`: update the first document matching the filter, if any. -/
def updateFirst {α : Type} (p : α → Bool) (f : α → α) : List α → List α
  | [] => []
  | x :: xs => if p x then f x :: xs else x :: updateFirst p f xs

/-- Positional array update `arr.{i}`: modify the element at index `i`. -/
def modifyAt {α : Type} (f : α → α) : Nat → List α → List α
  | _, [] => []
  | 0, x :: xs => f x :: xs
  | n + 1, x :: xs => x :: modifyAt f n xs

/-- Model of `next(((i, x) for i, x in enumerate(l) if q x), (None, None))`: first
element satisfying `q` together with its index. -/
def findFirstWithIdx {α : Type} (q : α → Bool) : List α → Option (Nat × α)
  | [] => none
  | x :: xs =>
    if q x then some (0, x) else (findFirstWithIdx q xs).map (fun p => (p.1 + 1, p.2))

/-! ### `create_team` (src/app.py lines 74-110) -/

/-- Payload entry of the `members` list; `m.get(key, '')` defaults are
folded into plain string fields. -/
structure MemberInput where
  name : String
  roll_number : String
  phone : String
  email : String
deriving DecidableEq, Repr

/-- Outcomes of the `create_team` handler.  The first four are the typed
`standard_response` results the code returns; `duplicateKeyError` models
`insert_one` raising `pymongo.errors.DuplicateKeyError` against the unique
index on `members.roll_number` — the handler has no try/except, so that
exception escapes uncaught. -/
inductive CreateTeamResult where
  | invalidTeamNumber
  | noMembers
  | teamExists
  | invalidRoll (rn : String)
  | duplicateKeyError
  | created (team_number : String) (member_count : Nat)
deriving DecidableEq, Repr

/-- The member-building loop (src/app.py lines 87-98): returns the first
invalid (uppercased) roll number, or the built member subdocuments. -/
def buildMembers : List MemberInput → Sum String (List Member)
  | [] => .inr []
  | m :: rest =>
    let rn := pyUpper m.roll_number
    if ¬ validate_roll_number rn then .inl rn
    else
      match buildMembers rest with
      | .inl bad => .inl bad
      | .inr ms =>
        .inr ({ name := m.name, roll_number := rn, phone := m.phone, email := m.email,
                is_active := true } :: ms)

/-- Whether inserting `doc` violates a unique index (on `ipa_ipr_no` or on
`members.roll_number`).  A unique multikey index compares values across
documents only, never within one document's own array. -/
def insertViolatesUnique (db : DB) (doc : Team) : Bool :=
  db.student_teams.any (fun tm => tm.ipa_ipr_no = doc.ipa_ipr_no)
    || db.student_teams.any (fun tm =>
        tm.members.any (fun m => doc.members.any (fun m2 => m2.roll_number = m.roll_number)))

/-- Handler `create_team` (src/app.py lines 74-110). -/
def create_team (db : DB) (t : Time) (ipa_ipr_no : String) (members_input : List MemberInput) :
    CreateTeamResult × DB :=
  let team_number := pyUpper ipa_ipr_no
  if ¬ validate_team_number team_number then (.invalidTeamNumber, db)
  else if members_input.length < 1 then (.noMembers, db)
  else if db.student_teams.any (fun tm => tm.ipa_ipr_no = team_number) then (.teamExists, db)
  else
    match buildMembers members_input with
    | .inl bad => (.invalidRoll bad, db)
    | .inr members =>
      let team_doc : Team :=
        { ipa_ipr_no := team_number, created_at := t.day, updated_at := t.day,
          members := members, component_requests := [], issued_components := [],
          return_history := [] }
      if insertViolatesUnique db team_doc then (.duplicateKeyError, db)
      else (.created team_number members.length,
            { db with student_teams := db.student_teams ++ [team_doc] })

/-! ### `create_component_request` (src/app.py lines 153-198) -/

/-- Outcomes of the submit handler.  `uncaughtError` models
`int(data.get('quantity', 0))` raising (line 158) with no surrounding
try/except. -/
inductive SubmitResult where
  | uncaughtError (exc : String)
  | invalidInput
  | componentNotFound
  | onlyAvailable (n : Int)
  | submitted (request_id : String)
deriving DecidableEq, Repr

/-- Lookup `find_one({'id': comp_id})` on the `components` collection. -/
def findComponent (db : DB) (cid : Int) : Option Component :=
  db.components.find? (fun c => c.id = cid)

/-- The stock read and admission test of the submit handler (src/app.py
lines 165-169): a `find_one` followed by plain Python comparisons, with no
lock or conditional update — a plain read-then-test. -/
def submitStockCheck (db : DB) (cid qty : Int) : Bool :=
  match findComponent db cid with
  | none => false
  | some comp => decide (¬ qty > comp.available)

/-- Id allocated by the counter upsert (src/app.py lines 171-178): the
incremented `seq`, formatted `REQ<year>-<seq:03d>`. -/
def nextRequestId (db : DB) (t : Time) : String :=
  String.mk ("REQ".toList ++ natReprChars t.year ++ '-' :: pad3Chars (db.counters_request_seq + 1))

/-- The `new_req` document (src/app.py lines 180-189). -/
def newRequestDoc (db : DB) (t : Time) (user : CurrentUser) (cid qty : Int)
    (notes comp_name : String) : ComponentRequest :=
  { request_id := nextRequestId db t, component_id := cid, name := comp_name,
    quantity := qty, request_date := t.day, requested_by := user.roll_number,
    status := "pending", notes := notes, resolutionPushed := [], resolutionSet := none,
    processed_at := none, processed_by := none }

/-- Write 1 of the submit handler: the atomic `find_one_and_update` counter
increment (src/app.py lines 172-177). -/
def incCounter (db : DB) : DB :=
  { db with counters_request_seq := db.counters_request_seq + 1 }

/-- Write 2 of the submit handler: `update_one` pushing the request onto
the team document (src/app.py lines 191-194). -/
def pushRequest (db : DB) (team_number : String) (r : ComponentRequest) : DB :=
  { db with student_teams :=
      (updateFirst (fun tm => tm.ipa_ipr_no = team_number)
        (fun tm => { tm with component_requests := tm.component_requests ++ [r] })
        db.student_teams) }

/-- Write 3 of the submit handler (and the inventory write of the accept
branch): `update_one` with `{'$inc': {'available': -qty}}` (src/app.py
lines 196 and 418-422) — an unconditional decrement. -/
def decAvailable (db : DB) (cid qty : Int) : DB :=
  { db with components :=
      (updateFirst (fun c => c.id = cid)
        (fun c => { c with available := c.available - qty }) db.components) }

/-- The three sequential, independent writes the submit handler performs
once the admission test passed, in program order (src/app.py lines
172-196); no transaction or session spans them.  `k` many of them have
committed when the process stops after the `k`-th write. -/
def submitWritesUpTo (db : DB) (t : Time) (user : CurrentUser) (cid qty : Int)
    (notes comp_name : String) : Nat → DB
  | 0 => db
  | 1 => incCounter db
  | 2 => pushRequest (incCounter db) user.team_number (newRequestDoc db t user cid qty notes comp_name)
  | _ + 3 =>
    decAvailable
      (pushRequest (incCounter db) user.team_number (newRequestDoc db t user cid qty notes comp_name))
      cid qty

/-- All three writes of the admitted submit path (the handler's normal
completion). -/
def submitAdmittedWrites (db : DB) (t : Time) (user : CurrentUser) (cid qty : Int)
    (notes comp_name : String) : DB :=
  submitWritesUpTo db t user cid qty notes comp_name 3

/-- Handler `create_component_request` (src/app.py lines 153-198).  `component_id`
is `none` when absent; `quantity` is `none` when absent (then the literal
default `0` feeds `int`). -/
def create_component_request (db : DB) (t : Time) (user : CurrentUser)
    (component_id : Option Int) (quantity : Option JVal) (notes comp_name : String) :
    SubmitResult × DB :=
  match (match quantity with | none => some (0 : Int) | some v => pyInt v) with
  | none => (.uncaughtError "ValueError", db)
  | some qty =>
    -- `if not comp_id or qty < 1`: `None` and `0` are falsy
    if component_id = none ∨ component_id = some 0 ∨ qty < 1 then (.invalidInput, db)
    else
      match findComponent db (component_id.getD 0) with
      | none => (.componentNotFound, db)
      | some comp =>
        if qty > comp.available then (.onlyAvailable comp.available, db)
        else
          (.submitted (nextRequestId db t),
           submitAdmittedWrites db t user (component_id.getD 0) qty notes comp_name)

/-! ### `process_component_request` (src/app.py lines 355-453) -/

/-- Outcomes of the process handler.  `processingFailed` models the
`except` branch (lines 451-453) that aborts the transaction and answers
500; it is unreachable in the model because no modelled step raises. -/
inductive ProcessResult where
  | invalidRequest
  | teamNotFound
  | noPendingRequest
  | componentUnavailable
  | rejected
  | processed
  | processingFailed
deriving DecidableEq, Repr

/-- The generator-with-default of src/app.py lines 379-383: first request
matching the id **and** still `pending`, with its index. -/
def findPendingIndex (reqs : List ComponentRequest) (rid : String) :
    Option (Nat × ComponentRequest) :=
  findFirstWithIdx (fun r => decide (r.request_id = rid) && decide (r.status = "pending")) reqs

/-- Per-request effect of the reject branch (src/app.py lines 393-399):
`$set` status `rejected`, `$push` a `{by, at}` resolution stamp. -/
def markRejected (username : String) (t : Time) (r : ComponentRequest) : ComponentRequest :=
  { r with status := "rejected", resolutionPushed := r.resolutionPushed ++ [⟨username, t.day⟩] }

/-- Per-request effect of the accept branch (src/app.py lines 429-431):
`$set` status `accepted` and the `resolution.by` / `resolution.at` fields. -/
def markAccepted (username : String) (t : Time) (r : ComponentRequest) : ComponentRequest :=
  { r with status := "accepted", resolutionSet := some ⟨username, t.day⟩ }

/-- The issued-component entry pushed by the accept branch (src/app.py
lines 433-444). -/
def acceptIssuedEntry (username : String) (t : Time) (issue_id : String)
    (target : ComponentRequest) : IssuedComponent :=
  { issue_id := issue_id, component_id := target.component_id, name := target.name,
    quantity := target.quantity, issue_date := t.day, issued_by := username,
    expected_return := t.day + 14, request_id := none, status := "issued" }

/-- The reject-branch team update (src/app.py lines 390-402): one
`update_one` on the first team matching `ipa_ipr_no`. -/
def rejectUpdateTeam (db : DB) (team_number : String) (idx : Nat) (username : String)
    (t : Time) : DB :=
  { db with student_teams :=
      (updateFirst (fun tm => tm.ipa_ipr_no = team_number)
        (fun tm => { tm with component_requests :=
          (modifyAt (markRejected username t) idx tm.component_requests) })
        db.student_teams) }

/-- The accept-branch team update (src/app.py lines 425-447): one
`update_one` that both `$set`s the request status/resolution and `$push`es
the issued-component entry. -/
def acceptUpdateTeam (db : DB) (team_number : String) (idx : Nat) (username : String)
    (t : Time) (issue_id : String) (target : ComponentRequest) : DB :=
  { db with student_teams :=
      (updateFirst (fun tm => tm.ipa_ipr_no = team_number)
        (fun tm =>
          { tm with
            component_requests := (modifyAt (markAccepted username t) idx tm.component_requests),
            issued_components :=
              (tm.issued_components ++ [acceptIssuedEntry username t issue_id target]) })
        db.student_teams) }

/-- Handler `process_component_request` (src/app.py lines 355-453).  The whole body
runs inside one MongoDB session transaction, so it is modelled as a single
atomic state transformation; error paths return before any write. -/
def process_component_request (db : DB) (t : Time) (user : CurrentUser)
    (team_number request_id action : String) : ProcessResult × DB :=
  -- `if not request_id or action not in ['accept', 'reject']`
  if request_id = "" ∨ (action ≠ "accept" ∧ action ≠ "reject") then (.invalidRequest, db)
  else
    match db.student_teams.find? (fun tm => tm.ipa_ipr_no = team_number) with
    | none => (.teamNotFound, db)
    | some team =>
      match findPendingIndex team.component_requests request_id with
      | none => (.noPendingRequest, db)
      | some (idx, target) =>
        if action = "reject" then
          (.rejected, rejectUpdateTeam db team_number idx user.username t)
        else
          -- accept: defensive re-check against the *already decremented* stock
          match findComponent db target.component_id with
          | none => (.componentUnavailable, db)
          | some inv =>
            if inv.available < target.quantity then (.componentUnavailable, db)
            else
              (.processed,
               acceptUpdateTeam (decAvailable db target.component_id target.quantity)
                 team_number idx user.username t
                 (String.mk ("ISS".toList ++ t.ymd.toList ++ '-' :: lastChars request_id 4))
                 target)

/-! ### `approve_request` (src/app.py lines 457-502) -/

/-- Outcomes of the approve handler.  `uncaughtError` models
`int(data.get('return_days', 14))` raising (line 463) with no try/except.
`approvedNotFound` is the 404 of line 483 (the database is already mutated
when it fires; it is unreachable right after a successful
`find_one_and_update`). -/
inductive ApproveResult where
  | uncaughtError (exc : String)
  | missingParams
  | requestNotFound
  | approvedNotFound
  | approved (issue_id : String) (expected_return : Int)
deriving DecidableEq, Repr

/-- Filter of the `find_one_and_update` (src/app.py line 468): team number
matches and **some** request has the id — no status condition at all. -/
def approveFilter (team_number request_id : String) (tm : Team) : Bool :=
  decide (tm.ipa_ipr_no = team_number)
    && tm.component_requests.any (fun r => r.request_id = request_id)

/-- The positional `component_requests.$` update (src/app.py lines
470-474): first array element matching the query's id condition gets
status `approved` plus processing stamps. -/
def positionalApprove (request_id username : String) (t : Time) :
    List ComponentRequest → List ComponentRequest
  | [] => []
  | r :: rs =>
    if r.request_id = request_id then
      { r with status := "approved", processed_at := some t.day, processed_by := some username } :: rs
    else r :: positionalApprove request_id username t rs

/-- Model of `find_one_and_update(..., ReturnDocument.AFTER)` (src/app.py lines
467-477): update the first matching team and return the updated document. -/
def approveUpdate (db : DB) (team_number request_id username : String) (t : Time) :
    Option (Team × DB) :=
  match db.student_teams.find? (approveFilter team_number request_id) with
  | none => none
  | some tm =>
    let tm' := { tm with component_requests :=
      (positionalApprove request_id username t tm.component_requests) }
    some (tm', { db with student_teams :=
      (updateFirst (approveFilter team_number request_id) (fun _ => tm') db.student_teams) })

/-- Update `update_one` pushing an issued entry (src/app.py lines 498-501). -/
def pushIssued (db : DB) (team_number : String) (it : IssuedComponent) : DB :=
  { db with student_teams :=
      (updateFirst (fun tm => tm.ipa_ipr_no = team_number)
        (fun tm => { tm with issued_components := tm.issued_components ++ [it] })
        db.student_teams) }

/-- Handler `approve_request` (src/app.py lines 457-502).  The issue id comes from
`len(team.issued_components) + 1` — a per-team count, not a global
counter. -/
def approve_request (db : DB) (t : Time) (user : CurrentUser)
    (team_number request_id : String) (return_days : Option JVal) : ApproveResult × DB :=
  match (match return_days with | none => some (14 : Int) | some v => pyInt v) with
  | none => (.uncaughtError "ValueError", db)
  | some days =>
    if team_number = "" ∨ request_id = "" then (.missingParams, db)
    else
      match approveUpdate db team_number request_id user.username t with
      | none => (.requestNotFound, db)
      | some (team, db1) =>
        match team.component_requests.find? (fun r => r.request_id = request_id) with
        | none => (.approvedNotFound, db1)
        | some approved =>
          let issue_seq := team.issued_components.length + 1
          let issue_id := String.mk ("ISS".toList ++ natReprChars t.year ++ '-' :: pad3Chars issue_seq)
          let issued : IssuedComponent :=
            { issue_id := issue_id, component_id := approved.component_id,
              name := approved.name, quantity := approved.quantity, issue_date := t.day,
              issued_by := user.username, expected_return := t.day + days,
              request_id := some request_id, status := "issued" }
          (.approved issue_id (t.day + days), pushIssued db1 team_number issued)

/-! ### State observers used by the theorems -/

/-- Available quantity of component `cid`, when it exists. -/
def availableOf (db : DB) (cid : Int) : Option Int :=
  (findComponent db cid).map (fun c => c.available)

/-- The first team matching a team number. -/
def teamOf (db : DB) (team_number : String) : Option Team :=
  db.student_teams.find? (fun tm => tm.ipa_ipr_no = team_number)

/-- Status of the first request with the given id inside the given team. -/
def requestStatus (db : DB) (team_number rid : String) : Option String :=
  (teamOf db team_number).bind fun tm =>
    (tm.component_requests.find? (fun r => r.request_id = rid)).map (fun r => r.status)

/-- Number of issued-component entries of the given team. -/
def issuedCountOf (db : DB) (team_number : String) : Nat :=
  match teamOf db team_number with
  | none => 0
  | some tm => tm.issued_components.length

/-- Whether some request with the given id exists in the given team. -/
def requestRecorded (db : DB) (team_number rid : String) : Bool :=
  match teamOf db team_number with
  | none => false
  | some tm => tm.component_requests.any (fun r => r.request_id = rid)

/-- Number of requests with the given id inside the given team. -/
def ridCountOf (db : DB) (team_number rid : String) : Nat :=
  match teamOf db team_number with
  | none => 0
  | some tm => tm.component_requests.countP (fun r => decide (r.request_id = rid))

/-- Number of still-`pending` requests with the given id inside the given
team. -/
def pendingRidCountOf (db : DB) (team_number rid : String) : Nat :=
  match teamOf db team_number with
  | none => 0
  | some tm =>
    tm.component_requests.countP
      (fun r => decide (r.request_id = rid) && decide (r.status = "pending"))

/-! ### Concrete fixtures used by the claim theorems -/

/-- A clock reading in 2025. -/
def t2025 : Time := { year := 2025, ymd := "20251012", day := 100 }

/-- A clock reading in 2026 (crosses a calendar-year boundary from
`t2025`). -/
def t2026 : Time := { year := 2026, ymd := "20260112", day := 192 }

/-- Scenario component `{id: 1, available: 5}`. -/
def comp1 : Component :=
  { id := 1, name := "Arduino", description := "", available := 5, category := "micro" }

/-- A member of team IPA001. -/
def alice : Member :=
  { name := "Alice", roll_number := "A123", phone := "", email := "", is_active := true }

/-- Scenario team IPA001 with no requests yet. -/
def team1 : Team :=
  { ipa_ipr_no := "IPA001", created_at := 0, updated_at := 0, members := [alice],
    component_requests := [], issued_components := [], return_history := [] }

/-- Student identity (JWT payload) for team IPA001. -/
def studentUser : CurrentUser := { roll_number := "A123", team_number := "IPA001", username := "" }

/-- Instructor identity. -/
def instructorUser : CurrentUser := { roll_number := "hema", team_number := "", username := "hema" }

/-- Scenario database: one component with `available = 5`, one team, fresh
request counter. -/
def db5 : DB := { components := [comp1], student_teams := [team1], counters_request_seq := 0 }

/-- Race fixture: the same state with only one unit in stock. -/
def dbRace1 : DB :=
  { components := [{ comp1 with available := 1 }], student_teams := [team1],
    counters_request_seq := 0 }

/-- Scenario A submission against `db5`: quantity 3, component 1. -/
def submitScenario : SubmitResult × DB :=
  create_component_request db5 t2025 studentUser (some 1) (some (.jnum 3)) "" "Arduino"

/-- Scenario C processing: rejecting the request submitted in
`submitScenario`. -/
def rejectScenario : ProcessResult × DB :=
  process_component_request submitScenario.2 t2025 instructorUser "IPA001" "REQ2025-001" "reject"

/-- Scenario B processing: accepting the request submitted in
`submitScenario`. -/
def acceptScenario : ProcessResult × DB :=
  process_component_request submitScenario.2 t2025 instructorUser "IPA001" "REQ2025-001" "accept"

/-- A pending request document for team IPA001. -/
def pendingReq : ComponentRequest :=
  { request_id := "REQ2025-001", component_id := 1, name := "Arduino", quantity := 3,
    request_date := 50, requested_by := "A123", status := "pending", notes := "",
    resolutionPushed := [], resolutionSet := none, processed_at := none, processed_by := none }

/-- Team IPA001 holding one pending request. -/
def teamWithPending : Team := { team1 with component_requests := [pendingReq] }

/-- Database with one pending request and stock 5. -/
def dbPending : DB :=
  { components := [comp1], student_teams := [teamWithPending], counters_request_seq := 1 }

/-- Database with one pending request and ample stock (10), so the accept
branch's defensive re-check passes. -/
def dbAccept : DB :=
  { components := [{ comp1 with available := 10 }], student_teams := [teamWithPending],
    counters_request_seq := 1 }

/-- A member of team IPA002. -/
def bob : Member :=
  { name := "Bob", roll_number := "B123", phone := "", email := "", is_active := true }

/-- A pending request of team IPA002. -/
def pendingReqB : ComponentRequest :=
  { pendingReq with request_id := "REQ2025-002", requested_by := "B123" }

/-- Team IPA002 holding one pending request. -/
def teamB : Team :=
  { ipa_ipr_no := "IPA002", created_at := 0, updated_at := 0, members := [bob],
    component_requests := [pendingReqB], issued_components := [], return_history := [] }

/-- Database with two teams, each holding one request and no issued items. -/
def dbTwoTeams : DB :=
  { components := [comp1], student_teams := [teamWithPending, teamB],
    counters_request_seq := 2 }

/-- Database with one existing team (member roll `A123`) and no
components, for the `create_team` claims. -/
def dbOneTeam : DB := { components := [], student_teams := [team1], counters_request_seq := 0 }

/-! ### General lemmas about the collection helpers -/

/-- Updating the first match with a filter-preserving function commutes
with `find?` on the same filter. -/
theorem find?_updateFirst {α : Type} (p : α → Bool) (f : α → α)
    (hf : ∀ x, p (f x) = p x) :
    ∀ l : List α, (updateFirst p f l).find? p = (l.find? p).map f := by
  intro l
  induction l with
  | nil => rfl
  | cons x xs ih =>
    by_cases hx : p x
    · rw [updateFirst, if_pos hx, List.find?_cons_of_pos _ ((hf x).trans hx),
        List.find?_cons_of_pos _ hx, Option.map_some']
    · rw [updateFirst, if_neg hx, List.find?_cons_of_neg _ hx, List.find?_cons_of_neg _ hx, ih]

/-- A found first match witnesses a positive count. -/
theorem one_le_countP_of_findFirstWithIdx {α : Type} (q : α → Bool) :
    ∀ (l : List α) (i : Nat) (x : α),
      findFirstWithIdx q l = some (i, x) → 1 ≤ l.countP q := by
  intro l
  induction l with
  | nil => intro i x h; simp [findFirstWithIdx] at h
  | cons y ys ih =>
    intro i x h
    by_cases hy : q y
    · simp [List.countP_cons, hy]
    · rw [findFirstWithIdx, if_neg hy] at h
      obtain ⟨⟨a, b⟩, hab, -⟩ := Option.map_eq_some'.1 h
      simpa [List.countP_cons, hy] using ih a b hab

/-- When no element satisfies the test, the first-with-index search fails. -/
theorem findFirstWithIdx_eq_none_of_countP {α : Type} (q : α → Bool) :
    ∀ l : List α, l.countP q = 0 → findFirstWithIdx q l = none := by
  intro l
  induction l with
  | nil => intro _; rfl
  | cons y ys ih =>
    intro h
    have hy : q y = false := by
      by_contra hc
      simp [List.countP_cons, eq_true_of_ne_false hc] at h
    have hys : ys.countP q = 0 := by simpa [List.countP_cons, hy] using h
    simp [findFirstWithIdx, hy, ih hys]

/-- Modifying the found first match with a test-falsifying function drops
the count by exactly one. -/
theorem countP_modifyAt_findFirst {α : Type} (q : α → Bool) (f : α → α)
    (hq : ∀ x, q (f x) = false) :
    ∀ (l : List α) (i : Nat) (x : α),
      findFirstWithIdx q l = some (i, x) →
      (modifyAt f i l).countP q + 1 = l.countP q := by
  intro l
  induction l with
  | nil => intro i x h; simp [findFirstWithIdx] at h
  | cons y ys ih =>
    intro i x h
    by_cases hy : q y
    · rw [findFirstWithIdx, if_pos hy] at h
      obtain ⟨hi, hx⟩ := Prod.mk.injEq .. ▸ Option.some.injEq .. ▸ h
      subst hi
      simp [modifyAt, List.countP_cons, hy, hq]
    · rw [findFirstWithIdx, if_neg hy] at h
      obtain ⟨⟨a, b⟩, hab, hix⟩ := Option.map_eq_some'.1 h
      obtain ⟨hi, hx⟩ := Prod.mk.injEq .. ▸ hix
      subst hi
      simp only [modifyAt, List.countP_cons, hy]
      have := ih a b hab
      omega

/-! ### Lemmas about the decimal rendering -/

/-- Appending one digit multiplies the read value by ten and adds it. -/
theorem reprVal_append_digit (ds : List Char) (c : Char) :
    reprVal (ds ++ [c]) = reprVal ds * 10 + (c.toNat - 48) := by
  simp [reprVal, List.foldl_append]

/-- Digit characters decode back to their digit. -/
theorem digitChar_decodes : ∀ d : Nat, d < 10 → (digitChar d).toNat - 48 = d := by decide

/-- The fuel-indexed rendering decodes to its argument when fuelled
adequately. -/
theorem reprVal_natReprAux : ∀ fuel n : Nat, n ≤ fuel → reprVal (natReprAux fuel n) = n := by
  intro fuel
  induction fuel with
  | zero =>
    intro n h
    match n, h with
    | 0, _ => rfl
  | succ fuel ih =>
    intro n h
    match n with
    | 0 => rfl
    | m + 1 =>
      have hdiv : (m + 1) / 10 ≤ fuel := by
        have h1 : (m + 1) / 10 < m + 1 := Nat.div_lt_self (Nat.succ_pos m) (by norm_num)
        omega
      rw [natReprAux, reprVal_append_digit, ih _ hdiv,
        digitChar_decodes _ (Nat.mod_lt _ (by norm_num))]
      omega

/-- The decimal rendering decodes to its argument. -/
theorem reprVal_natReprChars (n : Nat) : reprVal (natReprChars n) = n := by
  by_cases h : n = 0
  · subst h; rfl
  · rw [natReprChars, if_neg h, reprVal_natReprAux n n le_rfl]

/-- Leading zeros do not change the decoded value. -/
theorem reprVal_replicate_zero (k : Nat) (cs : List Char) :
    reprVal (List.replicate k '0' ++ cs) = reprVal cs := by
  induction k with
  | zero => rfl
  | succ k ih => rw [List.replicate_succ, List.cons_append]; exact ih

/-- The zero-padded rendering decodes to its argument. -/
theorem reprVal_pad3Chars (n : Nat) : reprVal (pad3Chars n) = n := by
  rw [pad3Chars]
  by_cases h : (natReprChars n).length < 3
  · simp only [h, if_true, reprVal_replicate_zero, reprVal_natReprChars]
  · simp only [h, if_false, reprVal_natReprChars]

/-- The zero-padded rendering is injective. -/
theorem pad3Chars_injective {a b : Nat} (h : pad3Chars a = pad3Chars b) : a = b := by
  have := congrArg reprVal h
  rwa [reprVal_pad3Chars, reprVal_pad3Chars] at this

/-! ### Shape lemmas about the handlers -/

/-- A successful submission returns the formatted next counter value and
bumps the global counter by exactly one. -/
theorem submit_success_shape (db : DB) (t : Time) (u : CurrentUser) (c : Option Int)
    (q : Option JVal) (n m : String) (r : String) (db' : DB)
    (h : create_component_request db t u c q n m = (.submitted r, db')) :
    r = nextRequestId db t ∧ db'.counters_request_seq = db.counters_request_seq + 1 := by
  unfold create_component_request at h
  split at h
  · simp at h
  · split at h
    · simp at h
    · split at h
      · simp at h
      · split at h
        · simp at h
        · simp only [Prod.mk.injEq, SubmitResult.submitted.injEq] at h
          obtain ⟨hr, hdb⟩ := h
          subst hr; subst hdb
          exact ⟨rfl, rfl⟩

/-- After a first processing call has moved the request out of `pending`,
a second `process_component_request` on the same id finds no pending match
and returns untouched state.  Shared analysis for the reject- and
accept-shaped first calls. -/
theorem second_process_noPending
    (db db1 : DB) (t2 : Time) (u2 : CurrentUser) (tn rid a2 : String)
    (team : Team) (idx : Nat) (target : ComponentRequest) (g : Team → Team)
    (mk : ComponentRequest → ComponentRequest)
    (hg_ipa : ∀ tm, (g tm).ipa_ipr_no = tm.ipa_ipr_no)
    (hg_req : ∀ tm, (g tm).component_requests = modifyAt mk idx tm.component_requests)
    (hmk : ∀ r, (decide ((mk r).request_id = rid) && decide ((mk r).status = "pending")) = false)
    (hteams : db1.student_teams = updateFirst (fun tm => tm.ipa_ipr_no = tn) g db.student_teams)
    (heqTeam : db.student_teams.find? (fun tm => tm.ipa_ipr_no = tn) = some team)
    (heqFind : findPendingIndex team.component_requests rid = some (idx, target))
    (huniq : ridCountOf db tn rid ≤ 1)
    (hrid : rid ≠ "") (ha2 : a2 = "accept" ∨ a2 = "reject") :
    process_component_request db1 t2 u2 tn rid a2 = (.noPendingRequest, db1) := by
  have hv : ¬(rid = "" ∨ (a2 ≠ "accept" ∧ a2 ≠ "reject")) := by
    rcases ha2 with h | h <;> subst h <;> simp [hrid]
  have hfind1 : db1.student_teams.find? (fun tm => tm.ipa_ipr_no = tn) = some (g team) := by
    rw [hteams, find?_updateFirst _ _ (fun tm => by rw [hg_ipa]), heqTeam, Option.map_some']
  have hcount : team.component_requests.countP
      (fun r => decide (r.request_id = rid) && decide (r.status = "pending")) ≤ 1 := by
    have hmono := List.countP_mono_left
      (l := team.component_requests)
      (p := fun r => decide (r.request_id = rid) && decide (r.status = "pending"))
      (q := fun r => decide (r.request_id = rid))
      (fun r _ h => by
        simp only [Bool.and_eq_true, decide_eq_true_eq] at h
        exact decide_eq_true h.1)
    have huniq' : team.component_requests.countP (fun r => decide (r.request_id = rid)) ≤ 1 := by
      unfold ridCountOf teamOf at huniq
      rwa [heqTeam] at huniq
    omega
  have hdrop := countP_modifyAt_findFirst
    (fun r : ComponentRequest => decide (r.request_id = rid) && decide (r.status = "pending"))
    mk hmk team.component_requests idx target (by exact heqFind)
  have hfind2 : findPendingIndex (g team).component_requests rid = none := by
    unfold findPendingIndex
    apply findFirstWithIdx_eq_none_of_countP
    rw [hg_req]
    omega
  rw [process_component_request, if_neg hv, hfind1]
  simp only [hfind2]

/-! ### Claim theorems -/

/-- Claim C1 (refuted on the code): the `available` counter is claimed to
stay non-negative under any interleaving of operations, but the submit
handler's admission test (src/app.py lines 165-169) is a plain read
followed by an unconditional `$inc` decrement (line 196), with no
condition on the update.  With one unit in stock, two concurrent submits
of quantity 1 whose stock checks both run against the initial state are
both admitted, and after both decrements commit `available` is `-1`.  The
last conjunct ties the interleaved pieces to the sequential handler: a
full uninterleaved run is exactly the check followed by the three
writes. -/
theorem C1_interleaved_submits_drive_available_negative :
    submitStockCheck dbRace1 1 1 = true ∧
    availableOf
      (submitAdmittedWrites (submitAdmittedWrites dbRace1 t2025 studentUser 1 1 "" "Arduino")
        t2025 studentUser 1 1 "" "Arduino") 1 = some (-1) ∧
    create_component_request dbRace1 t2025 studentUser (some 1) (some (.jnum 1)) "" "Arduino"
      = (.submitted (nextRequestId dbRace1 t2025),
         submitAdmittedWrites dbRace1 t2025 studentUser 1 1 "" "Arduino") := by decide

/-- Claim C2 (refuted on the code): rejecting a request is claimed to
restore `available` by the reserved quantity, but the reject branch
(src/app.py lines 389-403) only sets the status and pushes a resolution
stamp — it performs no inventory increment.  After submitting quantity 3
against stock 5 (leaving 2) and rejecting, `available` is still 2, not 5.
The request does end `rejected` and no issued item is created. -/
theorem C2_reject_does_not_restore_available :
    rejectScenario.1 = .rejected ∧
    requestStatus rejectScenario.2 "IPA001" "REQ2025-001" = some "rejected" ∧
    issuedCountOf rejectScenario.2 "IPA001" = 0 ∧
    availableOf rejectScenario.2 1 = some 2 ∧
    availableOf db5 1 = some 5 := by decide

/-- Claim C3 (refuted on the code): Scenario A holds — submitting quantity
3 against stock 5 succeeds, leaves `available = 2` and the request
`pending` — but Scenario B fails: the accept branch re-checks the
*already decremented* stock (2) against the request quantity (3)
(src/app.py line 411) and answers `Component unavailable` without mutating
anything, because the handler decrements at submit time *and* again at
accept time. -/
theorem C3_submit_reserves_but_accept_fails :
    submitScenario.1 = .submitted "REQ2025-001" ∧
    availableOf submitScenario.2 1 = some 2 ∧
    requestStatus submitScenario.2 "IPA001" "REQ2025-001" = some "pending" ∧
    acceptScenario.1 = .componentUnavailable ∧
    acceptScenario.2 = submitScenario.2 := by decide

/-- Claim C4 counterexample: the submit handler's counter increment,
request push and inventory decrement are three sequential, independent,
untransacted writes (src/app.py lines 172-196).  Stopping after the second
write leaves the request recorded while `available` is untouched,
violating the claimed record-iff-decrement atomicity.  The last conjunct
confirms the prefix model: the handler's full run is exactly the
three-write completion. -/
theorem C4_counterexample_crash_between_submit_writes :
    requestRecorded (submitWritesUpTo db5 t2025 studentUser 1 3 "" "Arduino" 2)
      "IPA001" "REQ2025-001" = true ∧
    availableOf (submitWritesUpTo db5 t2025 studentUser 1 3 "" "Arduino" 2) 1 = some 5 ∧
    create_component_request db5 t2025 studentUser (some 1) (some (.jnum 3)) "" "Arduino"
      = (.submitted "REQ2025-001", submitWritesUpTo db5 t2025 studentUser 1 3 "" "Arduino" 3) := by
  decide

/-- Claim C5 counterexample: `approve_request` filters only on the request
id, never on the status (src/app.py line 468).  After a first approval
moves the request to `approved`, a second approval call on the same id
succeeds again instead of failing, re-stamps the status and appends a
second issued-component entry (a double issue). -/
theorem C5_counterexample_second_approve_succeeds :
    (approve_request dbPending t2025 instructorUser "IPA001" "REQ2025-001" none).1
      = .approved "ISS2025-001" 114 ∧
    requestStatus (approve_request dbPending t2025 instructorUser "IPA001" "REQ2025-001" none).2
      "IPA001" "REQ2025-001" = some "approved" ∧
    (approve_request (approve_request dbPending t2025 instructorUser "IPA001" "REQ2025-001" none).2
      t2025 instructorUser "IPA001" "REQ2025-001" none).1 = .approved "ISS2025-002" 114 ∧
    issuedCountOf
      (approve_request (approve_request dbPending t2025 instructorUser "IPA001" "REQ2025-001" none).2
        t2025 instructorUser "IPA001" "REQ2025-001" none).2 "IPA001" = 2 := by decide

/-- Claim C6 counterexample: the request-id counter is a single global
`seq` document that is never reset (src/app.py lines 172-177); it is not
scoped per calendar year.  The first allocation of year 2026 after one
2025 allocation carries sequence value 2 and yields `REQ2026-002`, where a
year-scoped generator would restart at `REQ2026-001`. -/
theorem C6_counterexample_counter_not_year_scoped :
    (create_component_request db5 t2025 studentUser (some 1) (some (.jnum 1)) "" "R").1
      = .submitted "REQ2025-001" ∧
    (create_component_request
      (create_component_request db5 t2025 studentUser (some 1) (some (.jnum 1)) "" "R").2
      t2026 studentUser (some 1) (some (.jnum 1)) "" "R").1 = .submitted "REQ2026-002" ∧
    ("REQ2026-002" : String) ≠ "REQ2026-001" := by decide

/-- Claim C7 (refuted on the code): `approve_request` derives the issue id
from the *per-team* issued count (src/app.py lines 485-486).  Two teams
each approving their first request in the same year both receive
`ISS2025-001`: two issued-item creations with equal, non-increasing
ids. -/
theorem C7_issue_ids_collide_across_teams :
    (approve_request dbTwoTeams t2025 instructorUser "IPA001" "REQ2025-001" none).1
      = .approved "ISS2025-001" 114 ∧
    (approve_request (approve_request dbTwoTeams t2025 instructorUser "IPA001" "REQ2025-001" none).2
      t2025 instructorUser "IPA002" "REQ2025-002" none).1 = .approved "ISS2025-001" 114 := by decide

/-- Claim C8 counterexample: submitting a member whose roll number already
exists in another team does not produce a typed duplicate error response —
the handler never checks cross-team roll uniqueness (src/app.py lines
87-98); the insert is stopped only by the unique index, whose
`DuplicateKeyError` escapes the handler uncaught.  No document is
inserted. -/
theorem C8_counterexample_duplicate_roll_raises_uncaught :
    (create_team dbOneTeam t2025 "IPA002"
      [{ name := "Bob", roll_number := "A123", phone := "", email := "" }]).1
      = .duplicateKeyError ∧
    (create_team dbOneTeam t2025 "IPA002"
      [{ name := "Bob", roll_number := "A123", phone := "", email := "" }]).2 = dbOneTeam := by
  decide

/-- Claim C9 (refuted on the code): `create_component_request` runs
`int(data.get('quantity', 0))` before any validation (src/app.py line
158) with no surrounding try/except, so a non-numeric quantity such as
`"abc"` raises an uncaught `ValueError` instead of returning a typed
error result.  No state is mutated. -/
theorem C9_nonnumeric_quantity_raises_uncaught :
    (create_component_request db5 t2025 studentUser (some 1) (some (.jstr "abc")) "" "Arduino").1
      = .uncaughtError "ValueError" ∧
    (create_component_request db5 t2025 studentUser (some 1) (some (.jstr "abc")) "" "Arduino").2
      = db5 := by decide

/-- Claim C10 (confirmed): `create_team` checks each member's roll-number
format but never compares the submitted members against each other, and a
MongoDB unique multikey index does not compare values within one
document's array; a submission listing the same (format-valid) roll number
twice under a fresh team number therefore succeeds and inserts the team
with both duplicate members. -/
theorem C10_duplicate_roll_within_submission_inserted :
    (create_team dbOneTeam t2025 "ipa002"
      [{ name := "Bob", roll_number := "b123", phone := "", email := "" },
       { name := "Rob", roll_number := "B123", phone := "", email := "" }]).1
      = .created "IPA002" 2 ∧
    ((teamOf (create_team dbOneTeam t2025 "ipa002"
      [{ name := "Bob", roll_number := "b123", phone := "", email := "" },
       { name := "Rob", roll_number := "B123", phone := "", email := "" }]).2 "IPA002").map
        (fun tm => tm.members.map (fun m => m.roll_number))) = some ["B123", "B123"] := by decide

/-- An accept commit bumps the team's issued count by one and consumes
exactly one pending match of the processed id. -/
theorem acceptUpdateTeam_counts
    (db0 db : DB) (tn rid : String) (idx : Nat) (username : String) (t : Time)
    (issue_id : String) (target : ComponentRequest) (team : Team)
    (hteams : db0.student_teams = db.student_teams)
    (heqTeam : db.student_teams.find? (fun tm => tm.ipa_ipr_no = tn) = some team)
    (heqFind : findPendingIndex team.component_requests rid = some (idx, target)) :
    issuedCountOf (acceptUpdateTeam db0 tn idx username t issue_id target) tn
      = issuedCountOf db tn + 1 ∧
    pendingRidCountOf (acceptUpdateTeam db0 tn idx username t issue_id target) tn rid + 1
      = pendingRidCountOf db tn rid := by
  have hfind1 : (acceptUpdateTeam db0 tn idx username t issue_id target).student_teams.find?
      (fun tm => tm.ipa_ipr_no = tn)
      = (db.student_teams.find? (fun tm => tm.ipa_ipr_no = tn)).map
          (fun tm =>
            { tm with
              component_requests := (modifyAt (markAccepted username t) idx tm.component_requests),
              issued_components :=
                (tm.issued_components ++ [acceptIssuedEntry username t issue_id target]) }) := by
    show (updateFirst _ _ db0.student_teams).find? _ = _
    rw [hteams]
    refine find?_updateFirst _ _ ?_ db.student_teams
    intro tm; rfl
  constructor
  · unfold issuedCountOf teamOf
    rw [hfind1, heqTeam, Option.map_some']
    simp
  · unfold pendingRidCountOf teamOf
    rw [hfind1, heqTeam, Option.map_some']
    exact countP_modifyAt_findFirst _ _ (fun r => by simp [markAccepted]) _ _ _ (by exact heqFind)

/-- The member-building loop succeeds on format-valid rolls and returns
exactly the uppercased submitted roll numbers. -/
theorem buildMembers_rolls :
    ∀ ms : List MemberInput,
      (∀ mi ∈ ms, validate_roll_number (pyUpper mi.roll_number) = true) →
      ∃ built : List Member, buildMembers ms = .inr built ∧
        built.map (fun m => m.roll_number) = ms.map (fun mi => pyUpper mi.roll_number) := by
  intro ms
  induction ms with
  | nil => intro _; exact ⟨[], rfl, rfl⟩
  | cons mi rest ih =>
    intro hok
    obtain ⟨built, hb, hr⟩ := ih (fun x hx => hok x (List.mem_cons_of_mem _ hx))
    have h1 : validate_roll_number (pyUpper mi.roll_number) = true :=
      hok mi (List.mem_cons_self _ _)
    refine ⟨{ name := mi.name, roll_number := pyUpper mi.roll_number, phone := mi.phone,
              email := mi.email, is_active := true } :: built, ?_, ?_⟩
    · rw [buildMembers, if_neg (not_not_intro h1), hb]
    · simp [hr]

/-- Claim C4 (amended): `process_component_request` runs as one
transactional unit — every error outcome returns the state untouched (in
particular the `ComponentUnavailable` re-check failure applies no partial
mutation), and a successful accept commits the status flip and the
issued-item creation together: the issued list grows by one and exactly
one pending match of the id is consumed, in the same output state.  The
submit handler has no such protection (see the crash counterexample). -/
theorem C4_amended_process_transactional
    (db : DB) (t : Time) (u : CurrentUser) (tn rid action : String)
    (r : ProcessResult) (db' : DB)
    (hrun : process_component_request db t u tn rid action = (r, db')) :
    (r ≠ .rejected → r ≠ .processed → db' = db) ∧
    (r = .processed →
      issuedCountOf db' tn = issuedCountOf db tn + 1 ∧
      pendingRidCountOf db' tn rid + 1 = pendingRidCountOf db tn rid) := by
  unfold process_component_request at hrun
  split at hrun
  · simp only [Prod.mk.injEq] at hrun
    obtain ⟨hr, hdb⟩ := hrun; subst hr; subst hdb
    exact ⟨fun _ _ => rfl, fun h => absurd h (by decide)⟩
  · split at hrun
    · simp only [Prod.mk.injEq] at hrun
      obtain ⟨hr, hdb⟩ := hrun; subst hr; subst hdb
      exact ⟨fun _ _ => rfl, fun h => absurd h (by decide)⟩
    · split at hrun
      · simp only [Prod.mk.injEq] at hrun
        obtain ⟨hr, hdb⟩ := hrun; subst hr; subst hdb
        exact ⟨fun _ _ => rfl, fun h => absurd h (by decide)⟩
      · split at hrun
        · simp only [Prod.mk.injEq] at hrun
          obtain ⟨hr, hdb⟩ := hrun; subst hr
          exact ⟨fun hne _ => absurd rfl hne, fun h => absurd h (by decide)⟩
        · split at hrun
          · simp only [Prod.mk.injEq] at hrun
            obtain ⟨hr, hdb⟩ := hrun; subst hr; subst hdb
            exact ⟨fun _ _ => rfl, fun h => absurd h (by decide)⟩
          · split at hrun
            · simp only [Prod.mk.injEq] at hrun
              obtain ⟨hr, hdb⟩ := hrun; subst hr; subst hdb
              exact ⟨fun _ _ => rfl, fun h => absurd h (by decide)⟩
            · simp only [Prod.mk.injEq] at hrun
              obtain ⟨hr, hdb⟩ := hrun; subst hr
              refine ⟨fun _ hne => absurd rfl hne, fun _ => ?_⟩
              rw [← hdb]
              exact acceptUpdateTeam_counts _ db tn rid _ u.username t _ _ _ rfl
                (by assumption) (by assumption)

/-- Claim C4 witness: a malformed action leaves the state untouched, and a
concrete successful accept bumps the issued count and consumes the pending
request in one committed state. -/
theorem C4_witness_error_untouched_accept_commits :
    (process_component_request dbAccept t2025 instructorUser "IPA001" "REQ2025-001" "oops").2
      = dbAccept ∧
    issuedCountOf
      (process_component_request dbAccept t2025 instructorUser "IPA001" "REQ2025-001" "accept").2
      "IPA001" = issuedCountOf dbAccept "IPA001" + 1 ∧
    pendingRidCountOf
      (process_component_request dbAccept t2025 instructorUser "IPA001" "REQ2025-001" "accept").2
      "IPA001" "REQ2025-001" + 1 = pendingRidCountOf dbAccept "IPA001" "REQ2025-001" :=
  ⟨(C4_amended_process_transactional dbAccept t2025 instructorUser "IPA001" "REQ2025-001"
      "oops" _ _ rfl).1 (by decide) (by decide),
   (C4_amended_process_transactional dbAccept t2025 instructorUser "IPA001" "REQ2025-001"
      "accept" _ _ rfl).2 (by decide)⟩

/-- Claim C5 (amended): for `process_component_request` the claim holds —
once a first call has moved a request out of `pending` (to `rejected` or
`accepted`), any second `process_component_request` call on the same id
answers `No pending request found` and changes nothing, provided the team
holds at most one request with that id (which the global id counter
guarantees for ids the app itself allocated).  The claim fails for
`approve_request`, which checks no status and re-issues (see the
counterexample). -/
theorem C5_amended_second_process_fails
    (db : DB) (t1 t2 : Time) (u1 u2 : CurrentUser) (tn rid a1 a2 : String)
    (r1 : ProcessResult) (db1 : DB)
    (huniq : ridCountOf db tn rid ≤ 1)
    (hrun : process_component_request db t1 u1 tn rid a1 = (r1, db1))
    (hr1 : r1 = .rejected ∨ r1 = .processed)
    (ha2 : a2 = "accept" ∨ a2 = "reject") :
    process_component_request db1 t2 u2 tn rid a2 = (.noPendingRequest, db1) := by
  unfold process_component_request at hrun
  split at hrun
  · simp only [Prod.mk.injEq] at hrun
    obtain ⟨hr, hdb⟩ := hrun; subst hr
    rcases hr1 with h | h <;> exact absurd h (by decide)
  · split at hrun
    · simp only [Prod.mk.injEq] at hrun
      obtain ⟨hr, hdb⟩ := hrun; subst hr
      rcases hr1 with h | h <;> exact absurd h (by decide)
    · split at hrun
      · simp only [Prod.mk.injEq] at hrun
        obtain ⟨hr, hdb⟩ := hrun; subst hr
        rcases hr1 with h | h <;> exact absurd h (by decide)
      · split at hrun
        · -- first call rejected the request
          simp only [Prod.mk.injEq] at hrun
          obtain ⟨hr, hdb⟩ := hrun
          rename_i hcond xT team heqTeam xF idx target heqFind hrej
          exact second_process_noPending db db1 t2 u2 tn rid a2 team idx target
            (fun tm => { tm with component_requests :=
              (modifyAt (markRejected u1.username t1) idx tm.component_requests) })
            (markRejected u1.username t1)
            (fun tm => rfl) (fun tm => rfl)
            (fun r => by simp [markRejected])
            (by rw [← hdb]; rfl)
            heqTeam heqFind huniq (fun h => hcond (Or.inl h)) ha2
        · split at hrun
          · simp only [Prod.mk.injEq] at hrun
            obtain ⟨hr, hdb⟩ := hrun; subst hr
            rcases hr1 with h | h <;> exact absurd h (by decide)
          · split at hrun
            · simp only [Prod.mk.injEq] at hrun
              obtain ⟨hr, hdb⟩ := hrun; subst hr
              rcases hr1 with h | h <;> exact absurd h (by decide)
            · -- first call accepted the request
              simp only [Prod.mk.injEq] at hrun
              obtain ⟨hr, hdb⟩ := hrun
              rename_i hcond xT team heqTeam xF idx target heqFind hrej xC inv heqInv havail
              exact second_process_noPending db db1 t2 u2 tn rid a2 team idx target
                (fun tm =>
                  { tm with
                    component_requests :=
                      (modifyAt (markAccepted u1.username t1) idx tm.component_requests),
                    issued_components := (tm.issued_components ++
                      [acceptIssuedEntry u1.username t1
                        (String.mk ("ISS".toList ++ t1.ymd.toList ++ '-' :: lastChars rid 4))
                        target]) })
                (markAccepted u1.username t1)
                (fun tm => rfl) (fun tm => rfl)
                (fun r => by simp [markAccepted])
                (by rw [← hdb]; rfl)
                heqTeam heqFind huniq (fun h => hcond (Or.inl h)) ha2

/-- Claim C5 witness: after rejecting the only pending request of team
IPA001, an accept attempt on the same id fails with no state change. -/
theorem C5_witness_second_call_finds_nothing :
    process_component_request
      (process_component_request dbPending t2025 instructorUser "IPA001" "REQ2025-001" "reject").2
      t2025 instructorUser "IPA001" "REQ2025-001" "accept"
      = (.noPendingRequest,
         (process_component_request dbPending t2025 instructorUser "IPA001" "REQ2025-001"
           "reject").2) :=
  C5_amended_second_process_fails dbPending t2025 t2025 instructorUser instructorUser
    "IPA001" "REQ2025-001" "reject" "accept" _ _ (by decide) rfl (by decide) (Or.inl rfl)

/-- Claim C6 (amended): request ids are drawn from one **global**
monotonically increasing counter that is never reset (not a per-calendar-
year sequence): two successive successful submissions receive consecutive
counter values embedded in their ids, the counter advances gap-free by one
per success, and the two ids are distinct when allocated under the same
clock year.  The per-year scoping asserted by the claim fails (see the
counterexample). -/
theorem C6_amended_ids_from_single_global_counter
    (db : DB) (t : Time) (u1 u2 : CurrentUser) (c1 c2 : Option Int) (q1 q2 : Option JVal)
    (n1 n2 m1 m2 : String) (r1 r2 : String) (db1 db2 : DB)
    (h1 : create_component_request db t u1 c1 q1 n1 m1 = (.submitted r1, db1))
    (h2 : create_component_request db1 t u2 c2 q2 n2 m2 = (.submitted r2, db2)) :
    r1 = nextRequestId db t ∧ r2 = nextRequestId db1 t ∧
    db1.counters_request_seq = db.counters_request_seq + 1 ∧
    db2.counters_request_seq = db.counters_request_seq + 2 ∧
    r1 ≠ r2 := by
  obtain ⟨hr1, hc1⟩ := submit_success_shape _ _ _ _ _ _ _ _ _ h1
  obtain ⟨hr2, hc2⟩ := submit_success_shape _ _ _ _ _ _ _ _ _ h2
  refine ⟨hr1, hr2, hc1, by omega, ?_⟩
  rw [hr1, hr2]
  unfold nextRequestId
  intro hEq
  injection hEq with hEq
  have hC : '-' :: pad3Chars (db.counters_request_seq + 1)
      = '-' :: pad3Chars (db1.counters_request_seq + 1) :=
    List.append_cancel_left hEq
  injection hC with _ hP
  have := pad3Chars_injective hP
  omega

/-- Claim C6 witness: two successive successful submissions in 2025 on the
fresh database receive `REQ2025-001` and `REQ2025-002` with the counter at
1 then 2. -/
theorem C6_witness_two_successive_ids :
    ("REQ2025-001" : String) = nextRequestId db5 t2025 ∧
    ("REQ2025-002" : String) = nextRequestId
      (create_component_request db5 t2025 studentUser (some 1) (some (.jnum 1)) "" "R").2 t2025 ∧
    (create_component_request db5 t2025 studentUser (some 1) (some (.jnum 1)) "" "R").2.counters_request_seq
      = db5.counters_request_seq + 1 ∧
    (create_component_request
      (create_component_request db5 t2025 studentUser (some 1) (some (.jnum 1)) "" "R").2
      t2025 studentUser (some 1) (some (.jnum 1)) "" "R").2.counters_request_seq
      = db5.counters_request_seq + 2 ∧
    ("REQ2025-001" : String) ≠ "REQ2025-002" :=
  C6_amended_ids_from_single_global_counter db5 t2025 studentUser studentUser
    (some 1) (some 1) (some (.jnum 1)) (some (.jnum 1)) "" "" "R" "R"
    "REQ2025-001" "REQ2025-002"
    (create_component_request db5 t2025 studentUser (some 1) (some (.jnum 1)) "" "R").2
    (create_component_request
      (create_component_request db5 t2025 studentUser (some 1) (some (.jnum 1)) "" "R").2
      t2025 studentUser (some 1) (some (.jnum 1)) "" "R").2
    (by decide) (by decide)

/-- Claim C8 (amended): `create_team` validates the team-number and
roll-number formats and the duplicate team number with typed responses
before inserting, but it never checks submitted roll numbers against other
teams: on a cross-team duplicate the insert is stopped only by the unique
index, whose `DuplicateKeyError` escapes the handler uncaught instead of a
typed duplicate error; no document is inserted. -/
theorem C8_amended_duplicate_roll_uncaught_not_typed
    (db : DB) (t : Time) (tn : String) (ms : List MemberInput)
    (hfmt : validate_team_number (pyUpper tn) = true)
    (hlen : ms ≠ [])
    (hnew : ∀ tm ∈ db.student_teams, tm.ipa_ipr_no ≠ pyUpper tn)
    (hok : ∀ mi ∈ ms, validate_roll_number (pyUpper mi.roll_number) = true)
    (hdup : ∃ mi ∈ ms, ∃ tm ∈ db.student_teams, ∃ m ∈ tm.members,
      m.roll_number = pyUpper mi.roll_number) :
    create_team db t tn ms = (.duplicateKeyError, db) := by
  obtain ⟨built, hb, hr⟩ := buildMembers_rolls ms hok
  have hlen' : ¬(ms.length < 1) := by
    have := List.length_pos.2 hlen; omega
  have hany : db.student_teams.any (fun tm => tm.ipa_ipr_no = pyUpper tn) = false := by
    rw [List.any_eq_false]
    intro tm htm
    simpa using hnew tm htm
  have hins : insertViolatesUnique db
      { ipa_ipr_no := pyUpper tn, created_at := t.day, updated_at := t.day,
        members := built, component_requests := [], issued_components := [],
        return_history := [] } = true := by
    obtain ⟨mi, hmi, tm, htm, m, hm, hroll⟩ := hdup
    have hmem : pyUpper mi.roll_number ∈ built.map (fun m => m.roll_number) := by
      rw [hr]; exact List.mem_map_of_mem _ hmi
    obtain ⟨m2, hm2, hm2r⟩ := List.mem_map.1 hmem
    simp only [insertViolatesUnique, Bool.or_eq_true, List.any_eq_true, decide_eq_true_eq]
    exact Or.inr ⟨tm, htm, m, hm, m2, hm2, hm2r.trans hroll.symm⟩
  simp only [create_team, hb]
  rw [if_neg (not_not_intro hfmt), if_neg hlen', if_neg (by simp [hany]), if_pos hins]

/-- Claim C8 witness: a fresh valid team whose single member reuses roll
`A123` of the existing team IPA001 triggers the uncaught duplicate-key
path with no insertion. -/
theorem C8_witness_cross_team_duplicate :
    create_team dbOneTeam t2025 "IPA002"
      [{ name := "Bob", roll_number := "A123", phone := "", email := "" }]
      = (.duplicateKeyError, dbOneTeam) :=
  C8_amended_duplicate_roll_uncaught_not_typed dbOneTeam t2025 "IPA002"
    [{ name := "Bob", roll_number := "A123", phone := "", email := "" }]
    (by decide) (by decide) (by decide) (by decide)
    ⟨{ name := "Bob", roll_number := "A123", phone := "", email := "" },
      by decide, team1, by decide, alice, by decide, by decide⟩

end LabBackend
